import Mathlib

/-!
Shallow embedding of the IVoice translation app core
(src/App.tsx and src/geminiService.ts).

The embedding is translated line-by-line from the TypeScript source:
pure service functions become Lean functions, the React handlers become
explicit state-transition functions over an `AppState` record, the
`localStorage` ledger becomes an `Option UsageLedger` field, and the
side effects that leave the component (cloud capability calls, the
offline dictionary resolver invocation, speech synthesis) are recorded
in an `Effects` record returned next to the new state.  The outcome of
an awaited cloud capability call is a parameter of type
`Except String TranslationResult` (the `String` is the raw thrown
message), so a theorem can quantify over every possible cloud outcome.
User-facing error message texts interpolate data from a constants file
that is not part of the dispatch core; each distinct `setError` call
site is therefore modelled by a distinct `ErrSignal` constructor.
Lowercasing is modelled on ASCII letters (`Char.toLower`), which agrees
with JavaScript `toLowerCase` on every string the dictionary logic can
distinguish, since all dictionary keys are ASCII.
-/

namespace IVoice

/-- JavaScript `haystack.includes(pat)` (substring containment), on the
character lists of the strings. -/
def containsSub (pat : List Char) : List Char → Bool
  | [] => pat.isEmpty
  | c :: rest => pat.isPrefixOf (c :: rest) || containsSub pat rest

/-- `haystack.includes(pat)` on `String`s. -/
def includesStr (s pat : String) : Bool := containsSub pat.data s.data

/-- JavaScript `String.prototype.trim` on a character list: drop
whitespace from both ends. -/
def trimChars (l : List Char) : List Char :=
  ((l.dropWhile Char.isWhitespace).reverse.dropWhile Char.isWhitespace).reverse

/-- The normalisation pipeline of `translateOffline`
(src/geminiService.ts line 53):
`text.toLowerCase().trim().replace(/[?.!]/g, "")` — lowercase, trim,
then delete every occurrence of the sentence-terminal punctuation
characters `?`, `.`, `!`. -/
def normClean (s : String) : List Char :=
  (trimChars (s.data.map Char.toLower)).filter
    (fun c => !(c == '?' || c == '.' || c == '!'))

/-- `TranslationResult` (src/types): the value produced by every
translation capability.  `phonetic` is optional in the source; the
offline resolver always sets it to `""`. -/
structure TranslationResult where
  original_text : String
  detected_language : String
  translated_text : String
  phonetic : String
deriving DecidableEq, Repr

/-- `OFFLINE_DICTIONARY` (src/geminiService.ts lines 24-36), as an
ordered association list: JavaScript object iteration order for these
string keys is insertion order, which `Object.keys(...).find(...)`
relies on. -/
def OFFLINE_DICTIONARY : List (String × List (String × String)) :=
  [ ("hello", [("id", "halo"), ("es", "hola"), ("ja", "こんにちは"), ("zh", "你好"), ("en", "hello")])
  , ("thank you", [("id", "terima kasih"), ("es", "gracias"), ("ja", "ありがとう"), ("zh", "谢谢"), ("en", "thank you")])
  , ("where is the bathroom", [("id", "di mana kamar mandi"), ("es", "donde está el baño"), ("ja", "トイレはどこですか"), ("zh", "洗手间在哪里"), ("en", "where is the bathroom")])
  , ("help me", [("id", "tolong saya"), ("es", "ayúdame"), ("ja", "助けて"), ("zh", "帮帮我"), ("en", "help me")])
  , ("good morning", [("id", "selamat pagi"), ("es", "buenos días"), ("ja", "おはよう"), ("zh", "早上好"), ("en", "good morning")])
  , ("how much", [("id", "berapa harganya"), ("es", "cuánto cuesta"), ("ja", "いくらですか"), ("zh", "多少钱"), ("en", "how much")])
  , ("i am lost", [("id", "saya tersesat"), ("es", "estoy perdido"), ("ja", "迷いました"), ("zh", "我迷路了"), ("en", "i am lost")])
  , ("water", [("id", "air"), ("es", "agua"), ("ja", "水"), ("zh", "水"), ("en", "water")])
  , ("food", [("id", "makanan"), ("es", "comida"), ("ja", "食べ物"), ("zh", "食物"), ("en", "food")])
  , ("yes", [("id", "ya"), ("es", "sí"), ("ja", "はい"), ("zh", "是"), ("en", "yes")])
  , ("no", [("id", "tidak"), ("es", "no"), ("ja", "いいえ"), ("zh", "不"), ("en", "no")])
  ]

/-- JavaScript property access `entry[targetLangCode]` on one inner
dictionary object: `none` models `undefined`. -/
def langLookup (entry : List (String × String)) (code : String) : Option String :=
  (entry.find? (fun p => p.1 == code)).map Prod.snd

/-- JavaScript property access `OFFLINE_DICTIONARY[cleanText]`: exact
key lookup, `none` models `undefined`. -/
def dictExact (norm : List Char) : Option (List (String × String)) :=
  (OFFLINE_DICTIONARY.find? (fun kv : String × List (String × String) => kv.1.data == norm)).map Prod.snd

/-- `translateOffline` (src/geminiService.ts lines 52-72).  The source
declares it `async` but it performs no awaiting and no throwing; it is
a pure total function.  `translation || fallback` is modelled with
`Option.getD`: every dictionary value is a non-empty string, so the
JavaScript falsiness test on `translation` coincides with
`undefined`-ness. -/
def translateOffline (text : String) (targetLangCode : String) : TranslationResult :=
  let cleanText := normClean text
  let translation0 := (dictExact cleanText).bind (fun e => langLookup e targetLangCode)
  let translation :=
    match translation0 with
    | some t => some t
    | none =>
      match OFFLINE_DICTIONARY.find? (fun kv : String × List (String × String) => containsSub kv.1.data cleanText) with
      | some kv => langLookup kv.2 targetLangCode
      | none => none
  { original_text := text
    detected_language := "en"
    translated_text := translation.getD ("[Offline: " ++ text ++ "]")
    phonetic := "" }

/-- The reference algorithm in the words of the specification
(spec §4.1 / claim C6): normalise; on exact key match return the
dictionary translation for the requested code; otherwise take the first
dictionary key, in dictionary iteration order, that is a substring of
the normalised input, and return its translation for the requested
code; otherwise (or when the requested language is absent) return the
passthrough marker wrapping the original text; the detected language is
always the fixed source language `"en"`. -/
def translateOfflineRef (text : String) (targetLangCode : String) : TranslationResult :=
  let norm := normClean text
  let passthrough := "[Offline: " ++ text ++ "]"
  let translated :=
    match (dictExact norm).bind (fun e => langLookup e targetLangCode) with
    | some t => t
    | none =>
      match OFFLINE_DICTIONARY.find? (fun kv : String × List (String × String) => containsSub kv.1.data norm) with
      | some kv =>
        match langLookup kv.2 targetLangCode with
        | some t => t
        | none => passthrough
      | none => passthrough
  { original_text := text
    detected_language := "en"
    translated_text := translated
    phonetic := "" }

/-- The four distinct exits of `handleGenAIError`
(src/geminiService.ts lines 38-50): three replacement errors with fixed
kinds, or rethrowing the original error unchanged. -/
inductive ClassifiedError where
  | contentSafetyBlocked
  | rateLimited
  | copyrightBlocked
  | unclassified (original : String)
deriving DecidableEq, Repr

/-- `handleGenAIError` (src/geminiService.ts lines 38-50), as a map
from the raw failure's `message` text to the classified outcome.  The
source reads `error?.message || ""` and rethrows; the thrown
replacement errors are abstracted to their kind. -/
def handleGenAIError (message : String) : ClassifiedError :=
  if includesStr message "SAFETY" then .contentSafetyBlocked
  else if includesStr message "429" || includesStr message "quota" then .rateLimited
  else if includesStr message "RECITATION" then .copyrightBlocked
  else .unclassified message

/-- The persisted `gv_usage` ledger `{date, count}` (src/App.tsx). -/
structure UsageLedger where
  date : String
  count : Nat
deriving DecidableEq, Repr

/-- The effective count the quota check acts on (claim C1's reference
notion): the stored count when the stored date is the current calendar
day, and `0` otherwise (also when nothing is stored). -/
def effectiveCount (today : String) (stored : Option UsageLedger) : Nat :=
  match stored with
  | none => 0
  | some l => if l.date = today then l.count else 0

/-- `checkUsageLimit` (src/App.tsx lines 83-100).  `stored` is the
parsed content of `localStorage.getItem('gv_usage')` (`none` when
absent); `today` is `new Date().toISOString().split('T')[0]`.  The
source never calls `localStorage.setItem` here: the check reads only.
Returning `false` is accompanied by `setShowPremiumModal(true)`, which
the handler models at the call site. -/
def checkUsageLimit (isPremium : Bool) (today : String) (stored : Option UsageLedger) : Bool :=
  if isPremium then true
  else
    let usage0 := stored.getD { date := today, count := 0 }
    let usage := if usage0.date ≠ today then { date := today, count := 0 : UsageLedger } else usage0
    decide (usage.count < 3)

/-- `incrementUsage` (src/App.tsx lines 102-109).  Note the source
increments `usage.count` on whatever ledger was stored, without
comparing its `date` to `today`: a stale ledger keeps its stale date. -/
def incrementUsage (isPremium : Bool) (today : String) (stored : Option UsageLedger) : Option UsageLedger :=
  if isPremium then stored
  else
    let usage := stored.getD { date := today, count := 0 }
    some { usage with count := usage.count + 1 }

/-- A `LanguageOption` entry of `SUPPORTED_LANGUAGES` (src/types):
the dispatch code reads `code`, `name`, `ttsLocale` and `flag`
(`nativeName` appears only inside an abstracted error message). -/
structure Language where
  code : String
  name : String
  nativeName : String
  ttsLocale : String
  flag : String
deriving DecidableEq, Repr

/-- `HistoryItem` (src/types): a `TranslationResult` plus the fields
added at insertion time by `addToHistory`. -/
structure HistoryItem where
  original_text : String
  detected_language : String
  translated_text : String
  phonetic : String
  id : String
  timestamp : Nat
  targetLangName : String
  targetLangLocale : String
  targetLangFlag : String
deriving DecidableEq, Repr

/-- The item built by `addToHistory` (src/App.tsx lines 308-317):
the denormalised display fields come from `targetLang` when the
result's detected language equals the mother-language code, and from
`motherLang` otherwise. -/
def mkHistoryItem (motherLang targetLang : Language) (id : String) (ts : Nat)
    (r : TranslationResult) : HistoryItem :=
  let currentTarget := if r.detected_language = motherLang.code then targetLang else motherLang
  { original_text := r.original_text
    detected_language := r.detected_language
    translated_text := r.translated_text
    phonetic := r.phonetic
    id := id
    timestamp := ts
    targetLangName := currentTarget.name
    targetLangLocale := currentTarget.ttsLocale
    targetLangFlag := currentTarget.flag }

/-- `addToHistory` (src/App.tsx lines 308-319):
`setHistory(prev => [newItem, ...prev].slice(0, 50))`.  The fresh
`crypto.randomUUID()` and `Date.now()` of the source are the explicit
`id` and `ts` arguments. -/
def addToHistory (motherLang targetLang : Language) (id : String) (ts : Nat)
    (r : TranslationResult) (history : List HistoryItem) : List HistoryItem :=
  (mkHistoryItem motherLang targetLang id ts r :: history).take 50

/-- A sequence of successful translations folded through
`addToHistory`, starting from an empty history; each request carries
its freshly generated id and timestamp next to its result. -/
def runTranslations (motherLang targetLang : Language)
    (reqs : List (String × Nat × TranslationResult)) : List HistoryItem :=
  reqs.foldl (fun h q => addToHistory motherLang targetLang q.1 q.2.1 q.2.2 h) []

/-- The `TranslationMode` values relevant to dispatch (src/App.tsx). -/
inductive Mode where
  | voiceToVoice
  | voiceToText
  | textToText
  | imageToText
deriving DecidableEq, Repr

/-- The distinct `setError` call sites of the dispatch handlers
(src/App.tsx).  The interpolated user-facing message texts draw on a
constants file outside the dispatch core, so each site is modelled by
its kind: `offlinePremiumRequired` and `offlinePackMissing` are the two
entitlement-required messages, `connectivityRequired` is the image-mode
offline message, `offlineEngineError` is the catch branch around
`translateOffline`, and `cloud e` is `setError(parseErrorMessage(err))`
for a cloud capability failure with raw message `e`. -/
inductive ErrSignal where
  | offlinePremiumRequired
  | offlinePackMissing
  | connectivityRequired
  | offlineEngineError
  | cloud (raw : String)
deriving DecidableEq, Repr

/-- The React state touched by the dispatch handlers: the persisted
history (`gv_history`), the persisted usage ledger (`gv_usage`, `none`
when the key is absent), and the `translationResult`, `error` and
`showPremiumModal` pieces of component state. -/
structure AppState where
  history : List HistoryItem
  usage : Option UsageLedger
  translationResult : Option TranslationResult
  error : Option ErrSignal
  showPremiumModal : Bool
deriving DecidableEq, Repr

/-- The side effects a handler requests from the outside world:
whether the cloud capability was invoked, the `(text, langCode)`
argument pair of a `translateOffline` invocation, and the
`(text, locale)` argument pair of a `speakText` invocation. -/
structure Effects where
  calledCloud : Bool
  offlineQuery : Option (String × String)
  speak : Option (String × String)
deriving DecidableEq, Repr

/-- No external effect requested. -/
def noEffects : Effects := { calledCloud := false, offlineQuery := none, speak := none }

/-- The per-request environment a handler closes over: the signed-in
user's entitlement (`user?.isPremium`, `user?.downloadedLanguages`
with `[]` for an absent array), the connectivity flag, the current
calendar day, the two selected languages (`motherLang`/`targetLang`,
whose `code` fields are the `motherLangCode`/`targetLangCode` state),
the active mode, and the id/timestamp the insertion will generate. -/
structure Env where
  isPremium : Bool
  downloadedLanguages : List String
  isOnline : Bool
  today : String
  motherLang : Language
  targetLang : Language
  mode : Mode
  newId : String
  now : Nat
deriving DecidableEq, Repr

/-- `processAudio` (src/App.tsx lines 178-231), the voice-mode
dispatcher that receives the finalized recording.  `blob` is the
packaged audio payload (opaque); `cloud` is the outcome of the awaited
`translateAudio` call, consulted only on the online path. -/
def processAudio (env : Env) (blob : String)
    (cloud : Except String TranslationResult) (s : AppState) : AppState × Effects :=
  let s := { s with error := none, translationResult := none }
  if !env.isOnline then
    if !env.isPremium then
      ({ s with error := some .offlinePremiumRequired }, noEffects)
    else if !(env.downloadedLanguages.contains env.targetLang.code) then
      ({ s with error := some .offlinePackMissing }, noEffects)
    else
      let result := translateOffline "Help me" env.targetLang.code
      let s := { s with
        translationResult := some result
        history := addToHistory env.motherLang env.targetLang env.newId env.now result s.history }
      let speakReq :=
        if env.mode = Mode.voiceToVoice then
          some (result.translated_text, env.targetLang.ttsLocale)
        else none
      (s, { calledCloud := false, offlineQuery := some ("Help me", env.targetLang.code), speak := speakReq })
  else
    match cloud with
    | .ok result =>
      let s := { s with
        translationResult := some result
        history := addToHistory env.motherLang env.targetLang env.newId env.now result s.history
        usage := incrementUsage env.isPremium env.today s.usage }
      let speakReq :=
        if env.mode = Mode.voiceToVoice then
          some (result.translated_text,
            (if result.detected_language = env.motherLang.code then env.targetLang else env.motherLang).ttsLocale)
        else none
      (s, { calledCloud := true, offlineQuery := none, speak := speakReq })
    | .error e =>
      ({ s with error := some (.cloud e) }, { calledCloud := true, offlineQuery := none, speak := none })

/-- `handleTextTranslate` (src/App.tsx lines 233-276).  The quota check
runs first; `cloud` is the outcome of the awaited `translateText`
call, consulted only on the online path. -/
def handleTextTranslate (env : Env) (inputText : String)
    (cloud : Except String TranslationResult) (s : AppState) : AppState × Effects :=
  if !(checkUsageLimit env.isPremium env.today s.usage) then
    ({ s with showPremiumModal := true }, noEffects)
  else
    let s := { s with error := none, translationResult := none }
    if !env.isOnline then
      if !env.isPremium then
        ({ s with error := some .offlinePremiumRequired }, noEffects)
      else if !(env.downloadedLanguages.contains env.targetLang.code) then
        ({ s with error := some .offlinePackMissing }, noEffects)
      else
        let result := translateOffline inputText env.targetLang.code
        ({ s with
            translationResult := some result
            history := addToHistory env.motherLang env.targetLang env.newId env.now result s.history },
         { calledCloud := false, offlineQuery := some (inputText, env.targetLang.code), speak := none })
    else
      match cloud with
      | .ok result =>
        ({ s with
            translationResult := some result
            history := addToHistory env.motherLang env.targetLang env.newId env.now result s.history
            usage := incrementUsage env.isPremium env.today s.usage },
         { calledCloud := true, offlineQuery := none, speak := none })
      | .error e =>
        ({ s with error := some (.cloud e) }, { calledCloud := true, offlineQuery := none, speak := none })

/-- `handleImageTranslate` (src/App.tsx lines 278-297).  The
connectivity guard runs before everything else and neither clears the
shown result nor touches any persisted state; `cloud` is the outcome
of the awaited `translateImage` call. -/
def handleImageTranslate (env : Env)
    (cloud : Except String TranslationResult) (s : AppState) : AppState × Effects :=
  if !env.isOnline then
    ({ s with error := some .connectivityRequired }, noEffects)
  else if !(checkUsageLimit env.isPremium env.today s.usage) then
    ({ s with showPremiumModal := true }, noEffects)
  else
    let s := { s with error := none, translationResult := none }
    match cloud with
    | .ok result =>
      ({ s with
          translationResult := some result
          history := addToHistory env.motherLang env.targetLang env.newId env.now result s.history
          usage := incrementUsage env.isPremium env.today s.usage },
       { calledCloud := true, offlineQuery := none, speak := none })
    | .error e =>
      ({ s with error := some (.cloud e) }, { calledCloud := true, offlineQuery := none, speak := none })

/- Concrete sample values used by witnesses and counterexamples. -/

/-- Sample language entry (English). -/
def langEN : Language :=
  { code := "en", name := "English", nativeName := "English", ttsLocale := "en-US", flag := "us" }

/-- Sample language entry (Indonesian). -/
def langID : Language :=
  { code := "id", name := "Indonesian", nativeName := "Bahasa Indonesia", ttsLocale := "id-ID", flag := "id" }

/-- Sample language entry (Japanese). -/
def langJA : Language :=
  { code := "ja", name := "Japanese", nativeName := "Nihongo", ttsLocale := "ja-JP", flag := "jp" }

/-- Sample language entry (Korean): a supported target code for which
the offline dictionary holds no translations. -/
def langKO : Language :=
  { code := "ko", name := "Korean", nativeName := "Hangugeo", ttsLocale := "ko-KR", flag := "kr" }

/-- Fresh component state: empty history, no stored ledger. -/
def emptyState : AppState :=
  { history := [], usage := none, translationResult := none, error := none, showPremiumModal := false }

/-- Sample cloud translation result. -/
def sampleResult : TranslationResult :=
  { original_text := "hello", detected_language := "en", translated_text := "halo", phonetic := "ha-lo" }

/-- Auxiliary: prepending to an already-capped list and recapping is
the same as prepending to the uncapped list and capping. -/
lemma take_cons_take (x : HistoryItem) (l : List HistoryItem) (n : Nat) :
    (x :: l.take n).take n = (x :: l).take n := by
  cases n with
  | zero => simp
  | succ m =>
    simp only [List.take_succ_cons, List.take_take]
    rw [inf_eq_left.mpr (Nat.le_succ m)]

/-- Auxiliary: closed form of a fold of `addToHistory` over a request
sequence — the insertion-order reverse of the generated items, capped
at 50. -/
lemma runTranslations_eq (ml tl : Language) (reqs : List (String × Nat × TranslationResult)) :
    runTranslations ml tl reqs
      = ((reqs.map fun q => mkHistoryItem ml tl q.1 q.2.1 q.2.2).reverse).take 50 := by
  induction reqs using List.reverseRecOn with
  | nil => rfl
  | append_singleton l a ih =>
    have h1 : runTranslations ml tl (l ++ [a])
        = addToHistory ml tl a.1 a.2.1 a.2.2 (runTranslations ml tl l) := by
      simp [runTranslations, List.foldl_append]
    rw [h1, ih, addToHistory, take_cons_take]
    simp

/-- C1: for every non-premium identity, `checkUsageLimit` allows
exactly when the effective persisted count — the stored count when the
stored date is the current calendar day, `0` otherwise — is below 3
(so a 4th same-day cloud request is blocked and a new day observes 0);
for premium identities it always allows; and a request it blocks
leaves the whole state, the usage ledger included, unchanged apart
from raising the premium modal (the check never writes to storage). -/
theorem checkUsageLimit_spec :
    (∀ (today : String) (stored : Option UsageLedger),
        checkUsageLimit true today stored = true)
    ∧ (∀ (today : String) (stored : Option UsageLedger),
        (checkUsageLimit false today stored = true ↔ effectiveCount today stored < 3))
    ∧ (∀ (env : Env) (input : String) (cloud : Except String TranslationResult) (s : AppState),
        checkUsageLimit env.isPremium env.today s.usage = false →
        handleTextTranslate env input cloud s = ({ s with showPremiumModal := true }, noEffects)) := by
  refine ⟨fun t st => rfl, fun t st => ?_, fun env input cloud s h => ?_⟩
  · cases st with
    | none => simp [checkUsageLimit, effectiveCount]
    | some l =>
      by_cases hd : l.date = t <;> simp [checkUsageLimit, effectiveCount, hd]
  · simp [handleTextTranslate, h]

/-- C1 witness: a non-premium text submission with a same-day stored
count of 3 is blocked and leaves everything but the premium modal
unchanged. -/
theorem checkUsageLimit_spec_witness :
    handleTextTranslate
        { isPremium := false, downloadedLanguages := [], isOnline := true,
          today := "2026-10-11", motherLang := langEN, targetLang := langID,
          mode := Mode.textToText, newId := "w1", now := 0 }
        "hello" (Except.error "boom")
        { emptyState with usage := some { date := "2026-10-11", count := 3 } }
      = ({ { emptyState with usage := some { date := "2026-10-11", count := 3 } }
            with showPremiumModal := true }, noEffects) :=
  checkUsageLimit_spec.2.2 _ "hello" (Except.error "boom")
    { emptyState with usage := some { date := "2026-10-11", count := 3 } } rfl

/-- C2: evaluation of `incrementUsage` at a stale stored ledger.  The
source increments the stored count and keeps the stale date instead of
replacing the ledger with a fresh one dated today, so a later same-day
`checkUsageLimit` still treats the effective count as 0 and allows. -/
theorem incrementUsage_stale_date_eval :
    incrementUsage false "2026-10-11" (some { date := "2026-10-10", count := 3 })
        = some { date := "2026-10-10", count := 4 }
    ∧ checkUsageLimit false "2026-10-11" (some { date := "2026-10-10", count := 4 }) = true := by
  exact ⟨rfl, rfl⟩

/-- C3: every append leaves at most 50 items; appending to a history
of exactly 50 items inserts the new item at the front and evicts
exactly the oldest (last) item; a request sequence folded from the
empty history yields the newest-first reverse of the insertion order
capped at 50, and in particular after 51 sequential successful
translations the very first item is evicted and the most recent 50
remain, newest first. -/
theorem addToHistory_spec :
    (∀ (ml tl : Language) (id : String) (ts : Nat) (r : TranslationResult)
        (h : List HistoryItem), (addToHistory ml tl id ts r h).length ≤ 50)
    ∧ (∀ (ml tl : Language) (id : String) (ts : Nat) (r : TranslationResult)
        (h : List HistoryItem), h.length = 50 →
        addToHistory ml tl id ts r h = mkHistoryItem ml tl id ts r :: h.dropLast)
    ∧ (∀ (ml tl : Language) (reqs : List (String × Nat × TranslationResult)),
        runTranslations ml tl reqs
          = ((reqs.map fun q => mkHistoryItem ml tl q.1 q.2.1 q.2.2).reverse).take 50)
    ∧ (∀ (ml tl : Language) (reqs : List (String × Nat × TranslationResult)),
        reqs.length = 51 →
        runTranslations ml tl reqs
          = ((reqs.drop 1).map fun q => mkHistoryItem ml tl q.1 q.2.1 q.2.2).reverse) := by
  refine ⟨fun ml tl id ts r h => List.length_take_le 50 _,
          fun ml tl id ts r h hlen => ?_,
          fun ml tl reqs => runTranslations_eq ml tl reqs,
          fun ml tl reqs hlen => ?_⟩
  · rw [addToHistory, List.dropLast_eq_take, hlen,
      show (50 : Nat) = 49 + 1 from rfl, List.take_succ_cons]
  · match reqs, hlen with
    | q :: rest, hlen =>
      have hr : ((rest.map fun q => mkHistoryItem ml tl q.1 q.2.1 q.2.2).reverse).length = 50 := by
        simp at hlen ⊢
        omega
      rw [runTranslations_eq, List.map_cons, List.reverse_cons]
      rw [show (50 : Nat) = ((rest.map fun q => mkHistoryItem ml tl q.1 q.2.1 q.2.2).reverse).length from hr.symm]
      rw [List.take_left]
      simp

/-- C3 witness: the 50-item and 51-request conjuncts applied at
concrete replicated inputs. -/
theorem addToHistory_spec_witness :
    addToHistory langEN langID "w" 0 sampleResult
        (List.replicate 50 (mkHistoryItem langEN langID "x" 0 sampleResult))
      = mkHistoryItem langEN langID "w" 0 sampleResult
          :: (List.replicate 50 (mkHistoryItem langEN langID "x" 0 sampleResult)).dropLast
    ∧ runTranslations langEN langID (List.replicate 51 ("x", 0, sampleResult))
      = (((List.replicate 51 ("x", 0, sampleResult)).drop 1).map
          fun q => mkHistoryItem langEN langID q.1 q.2.1 q.2.2).reverse :=
  ⟨addToHistory_spec.2.1 langEN langID "w" 0 sampleResult _ (by simp),
   addToHistory_spec.2.2.2 langEN langID _ (by simp)⟩

/-- C4: an image-mode submission while connectivity is absent fails
with the `ConnectivityRequired` signal and changes nothing else — the
history, the usage ledger and the premium modal are untouched, no
capability is invoked, and the result is the same for every
entitlement and every would-be cloud outcome. -/
theorem handleImageTranslate_offline :
    ∀ (env : Env) (cloud : Except String TranslationResult) (s : AppState),
      env.isOnline = false →
      handleImageTranslate env cloud s
        = ({ s with error := some ErrSignal.connectivityRequired }, noEffects) := by
  intro env cloud s h
  simp [handleImageTranslate, h]

/-- C4 witness: a concrete offline image submission by a premium user
with packs downloaded still yields `ConnectivityRequired` only. -/
theorem handleImageTranslate_offline_witness :
    handleImageTranslate
        { isPremium := true, downloadedLanguages := ["id", "ja"], isOnline := false,
          today := "2026-10-11", motherLang := langEN, targetLang := langID,
          mode := Mode.imageToText, newId := "w2", now := 0 }
        (Except.ok sampleResult) emptyState
      = ({ emptyState with error := some ErrSignal.connectivityRequired }, noEffects) :=
  handleImageTranslate_offline _ (Except.ok sampleResult) emptyState rfl

/-- Sample environment: non-premium user, offline, text mode. -/
def envOffNP : Env :=
  { isPremium := false, downloadedLanguages := [], isOnline := false,
    today := "2026-10-11", motherLang := langEN, targetLang := langID,
    mode := Mode.textToText, newId := "c5", now := 0 }

/-- Sample environment: non-premium user, offline, voice mode. -/
def envVoiceNP : Env :=
  { isPremium := false, downloadedLanguages := [], isOnline := false,
    today := "2026-10-11", motherLang := langEN, targetLang := langID,
    mode := Mode.voiceToVoice, newId := "c5w", now := 0 }

/-- C5 counterexample: an offline text submission by a non-premium
user whose same-day stored count is already 3 does NOT surface the
entitlement-required signal — the quota check runs first, so the
premium modal (the `QuotaExceeded` surface) is raised and no error
signal at all is set. -/
theorem offline_text_quota_block_cex :
    (handleTextTranslate envOffNP "hello" (Except.error "x")
        { emptyState with usage := some { date := "2026-10-11", count := 3 } }).1.error = none
    ∧ (handleTextTranslate envOffNP "hello" (Except.error "x")
        { emptyState with usage := some { date := "2026-10-11", count := 3 } }).1.showPremiumModal = true
    ∧ (handleTextTranslate envOffNP "hello" (Except.error "x")
        { emptyState with usage := some { date := "2026-10-11", count := 3 } }).2.offlineQuery = none :=
  ⟨rfl, rfl, rfl⟩

/-- C5 (amended): an offline voice submission without premium or
without the downloaded target pack always surfaces the matching
entitlement-required signal, never invokes the offline resolver, and
leaves ledger, history and modal unchanged; an offline text submission
does the same provided the quota check passes, and when the quota
check fails it surfaces the premium modal (`QuotaExceeded`) instead —
still without invoking the resolver or changing ledger or history. -/
theorem offline_entitlement_gate :
    (∀ (env : Env) (blob : String) (cloud : Except String TranslationResult) (s : AppState),
        env.isOnline = false → env.isPremium = false →
        processAudio env blob cloud s
          = ({ s with
                error := some ErrSignal.offlinePremiumRequired
                translationResult := none }, noEffects))
    ∧ (∀ (env : Env) (blob : String) (cloud : Except String TranslationResult) (s : AppState),
        env.isOnline = false → env.isPremium = true →
        env.downloadedLanguages.contains env.targetLang.code = false →
        processAudio env blob cloud s
          = ({ s with
                error := some ErrSignal.offlinePackMissing
                translationResult := none }, noEffects))
    ∧ (∀ (env : Env) (input : String) (cloud : Except String TranslationResult) (s : AppState),
        env.isOnline = false → env.isPremium = false →
        checkUsageLimit false env.today s.usage = true →
        handleTextTranslate env input cloud s
          = ({ s with
                error := some ErrSignal.offlinePremiumRequired
                translationResult := none }, noEffects))
    ∧ (∀ (env : Env) (input : String) (cloud : Except String TranslationResult) (s : AppState),
        env.isOnline = false → env.isPremium = true →
        env.downloadedLanguages.contains env.targetLang.code = false →
        handleTextTranslate env input cloud s
          = ({ s with
                error := some ErrSignal.offlinePackMissing
                translationResult := none }, noEffects))
    ∧ (∀ (env : Env) (input : String) (cloud : Except String TranslationResult) (s : AppState),
        checkUsageLimit env.isPremium env.today s.usage = false →
        handleTextTranslate env input cloud s
          = ({ s with showPremiumModal := true }, noEffects)) := by
  refine ⟨fun env blob cloud s h hp => ?_,
          fun env blob cloud s h hp hd => ?_,
          fun env input cloud s h hp hq => ?_,
          fun env input cloud s h hp hd => ?_,
          fun env input cloud s hq => ?_⟩
  · simp [processAudio, h, hp]
  · have hd2 : env.targetLang.code ∉ env.downloadedLanguages := by simpa using hd
    simp [processAudio, h, hp, hd2]
  · simp [handleTextTranslate, h, hp, hq]
  · have hd2 : env.targetLang.code ∉ env.downloadedLanguages := by simpa using hd
    simp [handleTextTranslate, h, hp, hd2, checkUsageLimit]
  · simp [handleTextTranslate, hq]

/-- C5 witness: a concrete offline non-premium voice submission yields
exactly the premium-required signal and nothing else. -/
theorem offline_entitlement_gate_witness :
    processAudio envVoiceNP "payload" (Except.error "x") emptyState
      = ({ emptyState with
            error := some ErrSignal.offlinePremiumRequired
            translationResult := none }, noEffects) :=
  offline_entitlement_gate.1 envVoiceNP "payload" (Except.error "x") emptyState rfl rfl

/-- C6: the offline resolver is a total pure function that agrees
everywhere with the reference algorithm stated by the spec (normalise;
exact dictionary match; else first dictionary key, in iteration order,
contained in the normalised input; else the passthrough marker); its
detected language is always the fixed source language `"en"` and it
preserves the original text; and the spec's substring-fallback example
resolves `"can you help me please"` at `"ja"` to `"助けて"`. -/
theorem translateOffline_matches_ref :
    (∀ (text code : String), translateOffline text code = translateOfflineRef text code)
    ∧ (∀ (text code : String),
        (translateOffline text code).detected_language = "en"
        ∧ (translateOffline text code).original_text = text)
    ∧ (translateOffline "can you help me please" "ja").translated_text = "助けて" := by
  refine ⟨fun text code => ?_, fun text code => ⟨rfl, rfl⟩, rfl⟩
  simp only [translateOffline, translateOfflineRef]
  rcases h0 : (dictExact (normClean text)).bind (fun e => langLookup e code) with _ | t
  · rcases h1 : OFFLINE_DICTIONARY.find?
        (fun kv : String × List (String × String) => containsSub kv.1.data (normClean text)) with _ | kv
    · simp [h0, h1]
    · rcases h2 : langLookup kv.2 code with _ | t2 <;> simp [h0, h1, h2]
  · simp [h0]

/-- C7: the error classifier is a pure, order-sensitive map over the
raw failure's message in which the first matching rule wins: "SAFETY"
anywhere classifies as content-safety-blocked even when "429" is also
present; otherwise "429" or "quota" classifies as rate-limited;
otherwise "RECITATION" classifies as copyright-blocked; otherwise the
raw failure passes through unclassified. -/
theorem handleGenAIError_precedence :
    (∀ msg : String, includesStr msg "SAFETY" = true →
        handleGenAIError msg = ClassifiedError.contentSafetyBlocked)
    ∧ (∀ msg : String, includesStr msg "SAFETY" = false →
        (includesStr msg "429" || includesStr msg "quota") = true →
        handleGenAIError msg = ClassifiedError.rateLimited)
    ∧ (∀ msg : String, includesStr msg "SAFETY" = false →
        includesStr msg "429" = false → includesStr msg "quota" = false →
        includesStr msg "RECITATION" = true →
        handleGenAIError msg = ClassifiedError.copyrightBlocked)
    ∧ (∀ msg : String, includesStr msg "SAFETY" = false →
        includesStr msg "429" = false → includesStr msg "quota" = false →
        includesStr msg "RECITATION" = false →
        handleGenAIError msg = ClassifiedError.unclassified msg)
    ∧ handleGenAIError "blocked for SAFETY after HTTP 429"
        = ClassifiedError.contentSafetyBlocked := by
  refine ⟨fun msg h => ?_, fun msg h1 h2 => ?_, fun msg h1 h2 h3 h4 => ?_,
          fun msg h1 h2 h3 h4 => ?_, rfl⟩
  · simp [handleGenAIError, h]
  · simp [handleGenAIError, h1, h2]
  · simp [handleGenAIError, h1, h2, h3, h4]
  · simp [handleGenAIError, h1, h2, h3, h4]

/-- C7 witness: the precedence conjuncts applied at concrete
messages. -/
theorem handleGenAIError_precedence_witness :
    handleGenAIError "429" = ClassifiedError.rateLimited
    ∧ handleGenAIError "RECITATION" = ClassifiedError.copyrightBlocked
    ∧ handleGenAIError "odd failure" = ClassifiedError.unclassified "odd failure" :=
  ⟨handleGenAIError_precedence.2.1 "429" rfl rfl,
   handleGenAIError_precedence.2.2.1 "RECITATION" rfl rfl rfl rfl,
   handleGenAIError_precedence.2.2.2.1 "odd failure" rfl rfl rfl rfl⟩

/-- Sample environment: non-premium user, online, voice mode. -/
def envOnline : Env :=
  { isPremium := false, downloadedLanguages := [], isOnline := true,
    today := "2026-10-11", motherLang := langEN, targetLang := langID,
    mode := Mode.voiceToVoice, newId := "c8", now := 0 }

/-- C8: when the invoked cloud translation capability fails (the call
throws with any raw message), none of the three dispatch handlers
writes to either persistent store — the history list and the usage
ledger are exactly what they were before the request. -/
theorem cloud_failure_preserves_state :
    ∀ (env : Env) (s : AppState) (e : String),
      env.isOnline = true →
      (∀ blob : String,
        (processAudio env blob (Except.error e) s).1.history = s.history
        ∧ (processAudio env blob (Except.error e) s).1.usage = s.usage)
      ∧ (∀ input : String,
        (handleTextTranslate env input (Except.error e) s).1.history = s.history
        ∧ (handleTextTranslate env input (Except.error e) s).1.usage = s.usage)
      ∧ ((handleImageTranslate env (Except.error e) s).1.history = s.history
        ∧ (handleImageTranslate env (Except.error e) s).1.usage = s.usage) := by
  intro env s e h
  refine ⟨fun blob => ?_, fun input => ?_, ?_⟩
  · simp [processAudio, h]
  · by_cases hq : checkUsageLimit env.isPremium env.today s.usage <;>
      simp [handleTextTranslate, h, hq]
  · by_cases hq : checkUsageLimit env.isPremium env.today s.usage <;>
      simp [handleImageTranslate, h, hq]

/-- C8 witness: a concrete online request whose cloud call throws
leaves the empty stores empty in all three modes. -/
theorem cloud_failure_preserves_state_witness :
    ((processAudio envOnline "payload" (Except.error "boom") emptyState).1.history
        = emptyState.history
      ∧ (processAudio envOnline "payload" (Except.error "boom") emptyState).1.usage
        = emptyState.usage)
    ∧ ((handleImageTranslate envOnline (Except.error "boom") emptyState).1.history
        = emptyState.history
      ∧ (handleImageTranslate envOnline (Except.error "boom") emptyState).1.usage
        = emptyState.usage) :=
  ⟨(cloud_failure_preserves_state envOnline emptyState "boom" rfl).1 "payload",
   (cloud_failure_preserves_state envOnline emptyState "boom" rfl).2.2⟩

/-- Sample environment: premium user, offline, voice mode, Indonesian
mother language, downloaded Japanese target pack. -/
def envVoiceOff : Env :=
  { isPremium := true, downloadedLanguages := ["ja"], isOnline := false,
    today := "2026-10-11", motherLang := langID, targetLang := langJA,
    mode := Mode.voiceToVoice, newId := "c9", now := 0 }

/-- C9 counterexample: on the offline voice path the code always
speaks in the target language's voice.  Here the successful offline
result's detected language is `"en"`, which differs from the mother
code `"id"`, so the claim requires the mother voice (`"id-ID"`); the
code requests the target voice (`"ja-JP"`). -/
theorem offline_voice_tts_cex :
    (processAudio envVoiceOff "audio-payload" (Except.error "x") emptyState).2.speak
        = some ("助けて", "ja-JP")
    ∧ (processAudio envVoiceOff "audio-payload" (Except.error "x") emptyState).1.translationResult
        = some { original_text := "Help me", detected_language := "en",
                 translated_text := "助けて", phonetic := "" }
    ∧ envVoiceOff.motherLang.code = "id"
    ∧ envVoiceOff.motherLang.ttsLocale = "id-ID"
    ∧ "en" ≠ "id"
    ∧ "ja-JP" ≠ "id-ID" :=
  ⟨rfl, rfl, rfl, rfl, by decide, by decide⟩

/-- C9 (amended): for a successful cloud voice-to-voice translation,
playback uses the target language's voice when the detected language
equals the mother code and the mother language's voice otherwise; for
a successful offline voice-to-voice translation, playback always uses
the target language's voice. -/
theorem voice_tts_selection :
    (∀ (env : Env) (blob : String) (r : TranslationResult) (s : AppState),
        env.isOnline = true → env.mode = Mode.voiceToVoice →
        (processAudio env blob (Except.ok r) s).2.speak
          = some (r.translated_text,
              (if r.detected_language = env.motherLang.code then env.targetLang
               else env.motherLang).ttsLocale))
    ∧ (∀ (env : Env) (blob : String) (cloud : Except String TranslationResult) (s : AppState),
        env.isOnline = false → env.mode = Mode.voiceToVoice →
        env.isPremium = true →
        env.downloadedLanguages.contains env.targetLang.code = true →
        (processAudio env blob cloud s).2.speak
          = some ((translateOffline "Help me" env.targetLang.code).translated_text,
                  env.targetLang.ttsLocale)) := by
  constructor
  · intro env blob r s h hm
    simp [processAudio, h, hm]
  · intro env blob cloud s h hm hp hd
    have hd2 : env.targetLang.code ∈ env.downloadedLanguages := by simpa using hd
    simp [processAudio, h, hm, hp, hd2]

/-- C9 witness: both playback conjuncts applied at concrete inputs. -/
theorem voice_tts_selection_witness :
    (processAudio envOnline "payload" (Except.ok sampleResult) emptyState).2.speak
      = some (sampleResult.translated_text,
          (if sampleResult.detected_language = envOnline.motherLang.code then envOnline.targetLang
           else envOnline.motherLang).ttsLocale)
    ∧ (processAudio envVoiceOff "payload" (Except.error "x") emptyState).2.speak
      = some ((translateOffline "Help me" envVoiceOff.targetLang.code).translated_text,
              envVoiceOff.targetLang.ttsLocale) :=
  ⟨voice_tts_selection.1 envOnline "payload" sampleResult emptyState rfl rfl,
   voice_tts_selection.2 envVoiceOff "payload" (Except.error "x") emptyState rfl rfl rfl rfl⟩

/-- Sample environment: premium user, offline, voice mode, downloaded
Korean target pack — a supported code absent from the offline
dictionary's per-key translations. -/
def envVoiceKo : Env :=
  { isPremium := true, downloadedLanguages := ["ko"], isOnline := false,
    today := "2026-10-11", motherLang := langEN, targetLang := langKO,
    mode := Mode.voiceToVoice, newId := "c10", now := 0 }

/-- C10 counterexample: a successful offline voice translation toward
Korean does not return the dictionary entry for "help me" — the
dictionary has no Korean translation for that key, so the resolver
returns the passthrough marker instead. -/
theorem offline_voice_passthrough_cex :
    (processAudio envVoiceKo "recorded audio bytes" (Except.error "x") emptyState).1.translationResult
        = some { original_text := "Help me", detected_language := "en",
                 translated_text := "[Offline: Help me]", phonetic := "" }
    ∧ (dictExact (normClean "Help me")).bind (fun e => langLookup e "ko") = none :=
  ⟨rfl, rfl⟩

/-- C10 (amended): every offline voice request by a premium user with
the target pack downloaded invokes the offline resolver with the fixed
literal `"Help me"`, regardless of the recorded payload, and its
result is exactly `translateOffline "Help me" target` — the dictionary
entry for "help me" when the target code has one, and the passthrough
marker otherwise. -/
theorem offline_voice_fixed_query :
    ∀ (env : Env) (blob : String) (cloud : Except String TranslationResult) (s : AppState),
      env.isOnline = false → env.isPremium = true →
      env.downloadedLanguages.contains env.targetLang.code = true →
      (processAudio env blob cloud s).2.offlineQuery = some ("Help me", env.targetLang.code)
      ∧ (processAudio env blob cloud s).1.translationResult
          = some (translateOffline "Help me" env.targetLang.code) := by
  intro env blob cloud s h hp hd
  have hd2 : env.targetLang.code ∈ env.downloadedLanguages := by simpa using hd
  constructor <;> simp [processAudio, h, hp, hd2]

/-- C10 witness: the fixed-query conjuncts at the concrete Korean
environment, with an arbitrary payload string. -/
theorem offline_voice_fixed_query_witness :
    (processAudio envVoiceKo "ignored payload" (Except.error "x") emptyState).2.offlineQuery
        = some ("Help me", envVoiceKo.targetLang.code)
    ∧ (processAudio envVoiceKo "ignored payload" (Except.error "x") emptyState).1.translationResult
        = some (translateOffline "Help me" envVoiceKo.targetLang.code) :=
  offline_voice_fixed_query envVoiceKo "ignored payload" (Except.error "x") emptyState rfl rfl rfl

end IVoice
